import Mathlib

/-!
Verification development for the credential and session lifecycle subsystem
of the serverless repository: the session manager (`src/controllers/auth.js`
together with the mongoose user model `src/models/user.js`), the edge
authorizer (`src/authorizer.js`), and the gateway-context role middleware
(`src/utils/jwt.js`).

Modelling conventions:
* Timestamps are milliseconds since the epoch, as `Nat` (JavaScript
  `Date.now()`).
* The external `bcryptjs` library is abstracted as a parameter
  `bhash : String → String` (salt folded into the function): the stored
  password digest of plaintext `p` is `bhash p`, and `bcrypt.compare c h`
  holds exactly when `h = bhash c`.  The external `crypto` SHA-256 digest is
  likewise a parameter `shash : String → String`.  No theorem assumes more
  about them than the code uses; hypotheses such as `bhash p ≠ p` are
  discharged at concrete instantiations in witnesses.
* JavaScript string falsiness (`undefined`, `null`, `""`) is modelled with
  `Option String`, the empty string playing the falsy-string role.
* HTTP responses are modelled by their status, success flag and message;
  the `data` payloads (token strings, public user views) are not compared
  by any claim below and are omitted.
-/

/-- Observable part of an HTTP response envelope: status code, `success`
flag and `message` string. -/
structure Resp where
  status : Nat
  success : Bool
  message : String
deriving DecidableEq, Repr

/-- One entry of the `refreshTokens` array of the user schema
(`src/models/user.js` lines 69-83): token value, creation time and device
metadata. -/
structure RefreshEntry where
  token : String
  createdAt : Nat
  userAgent : String
  ip : String
deriving DecidableEq, Repr

/-- The persisted identity record (`userSchema`, `src/models/user.js`).
Optional fields model mongoose fields that may be unset. -/
structure UserSt where
  email : String
  password : String
  firstName : String
  lastName : String
  role : String
  isActive : Bool
  emailVerificationToken : Option String
  passwordResetToken : Option String
  passwordResetExpires : Option Nat
  lastLogin : Option Nat
  loginAttempts : Nat
  lockUntil : Option Nat
  refreshTokens : List RefreshEntry
deriving DecidableEq, Repr

namespace UserSt

/-- Virtual `isLocked` (`src/models/user.js` lines 98-100):
`!!(this.lockUntil && this.lockUntil > Date.now())`. -/
def isLocked (u : UserSt) (now : Nat) : Bool :=
  match u.lockUntil with
  | some t => decide (now < t)
  | none => false

/-- Instance method `comparePassword` (`src/models/user.js` lines 121-126):
`bcrypt.compare(candidate, this.password)`, under the deterministic
abstraction of bcrypt by `bhash`. -/
def comparePassword (bhash : String → String) (u : UserSt) (candidate : String) : Bool :=
  u.password == bhash candidate

/-- Instance method `addRefreshToken` (`src/models/user.js` lines 146-158):
push the new entry, then keep only the last 5 (`slice(-5)`). -/
def addRefreshToken (u : UserSt) (tok : String) (ua ip : String) (now : Nat) : UserSt :=
  let l := u.refreshTokens ++ [⟨tok, now, ua, ip⟩]
  { u with refreshTokens := if 5 < l.length then l.drop (l.length - 5) else l }

/-- Instance method `removeRefreshToken` (`src/models/user.js` lines
161-164): filter out entries whose token equals the argument. -/
def removeRefreshToken (u : UserSt) (tok : String) : UserSt :=
  { u with refreshTokens := u.refreshTokens.filter (fun rt => rt.token != tok) }

/-- Instance method `clearAllRefreshTokens` (`src/models/user.js` lines
167-170). -/
def clearAllRefreshTokens (u : UserSt) : UserSt :=
  { u with refreshTokens := [] }

/-- Token values currently held in the refresh-token list. -/
def refreshTokenValues (u : UserSt) : List String :=
  u.refreshTokens.map RefreshEntry.token

end UserSt

/-- Static `findByRefreshToken` (`src/models/user.js` lines 178-180):
first record whose refresh-token list contains the value. -/
def findByRefreshToken (db : List UserSt) (tok : String) : Option UserSt :=
  db.find? (fun u => u.refreshTokens.any (fun rt => rt.token == tok))

/-- Mongoose `findOne` with an update applied to the first matching record;
the rest of the collection is untouched. -/
def updateFirst (p : UserSt → Bool) (f : UserSt → UserSt) : List UserSt → List UserSt
  | [] => []
  | u :: rest => if p u then f u :: rest else u :: updateFirst p f rest

/-- Login (`src/controllers/auth.js` lines 82-172), per record, after the
record has been found by email: lock check, active check, password check
with attempt counting and 30-minute lock on the 5th failure, and on success
reset of the lockout sub-state, last-login stamp and refresh-token append.
Returns the updated record and the response. -/
def loginStep (bhash : String → String) (u : UserSt) (pw rt ua ip : String) (now : Nat) :
    UserSt × Resp :=
  if u.isLocked now then
    (u, ⟨423, false, "Account is temporarily locked due to too many failed login attempts"⟩)
  else if !u.isActive then
    (u, ⟨403, false, "Account is deactivated"⟩)
  else if !(u.comparePassword bhash pw) then
    let a := u.loginAttempts + 1
    ({ u with loginAttempts := a,
              lockUntil := if 5 ≤ a then some (now + 30 * 60 * 1000) else u.lockUntil },
     ⟨401, false, "Invalid credentials"⟩)
  else
    (UserSt.addRefreshToken
       { u with loginAttempts := 0, lockUntil := none, lastLogin := some now } rt ua ip now,
     ⟨200, true, "Login successful"⟩)

/-- Registration (`src/controllers/auth.js` lines 12-77), the created
record: hashed password, email-verification digest
(`generateEmailVerificationToken`, `src/models/user.js` lines 129-134),
one persisted refresh token, last-login stamp. -/
def registerUser (bhash shash : String → String)
    (email pw firstName lastName role emailTok rt ua ip : String) (now : Nat) : UserSt :=
  UserSt.addRefreshToken
    { email := email, password := bhash pw, firstName := firstName, lastName := lastName,
      role := role, isActive := true,
      emailVerificationToken := some (shash emailTok),
      passwordResetToken := none, passwordResetExpires := none,
      lastLogin := some now, loginAttempts := 0, lockUntil := none,
      refreshTokens := [] } rt ua ip now

/-- The mongoose query filter of `resetPassword` (`src/controllers/auth.js`
lines 438-441): `passwordResetToken: token` compares the STORED value with
the RAW supplied token, and `passwordResetExpires: { $gt: Date.now() }`. -/
def resetMatches (tok : String) (now : Nat) (u : UserSt) : Bool :=
  u.passwordResetToken == some tok &&
    (match u.passwordResetExpires with
     | some e => decide (now < e)
     | none => false)

/-- The record update performed by a successful `resetPassword`
(`src/controllers/auth.js` lines 450-460). -/
def applyReset (bhash : String → String) (newPw : String) (u : UserSt) : UserSt :=
  { u with password := bhash newPw,
           passwordResetToken := none, passwordResetExpires := none,
           loginAttempts := 0, lockUntil := none, refreshTokens := [] }

/-- `resetPassword` (`src/controllers/auth.js` lines 433-474) over the whole
collection: find the first record matching the raw-token filter; if none,
400 with the generic message and no state change; otherwise apply the
update to that record. -/
def resetPasswordOp (bhash : String → String) (db : List UserSt) (tok newPw : String)
    (now : Nat) : List UserSt × Resp :=
  match db.find? (resetMatches tok now) with
  | none => (db, ⟨400, false, "Invalid or expired reset token"⟩)
  | some _ =>
      (updateFirst (resetMatches tok now) (applyReset bhash newPw) db,
       ⟨200, true, "Password reset successfully"⟩)

/-- Instance method `generatePasswordResetToken` applied to a record
(`src/models/user.js` lines 137-143): stores the SHA-256 digest of the raw
token and a 10-minute expiry. -/
def setResetToken (shash : String → String) (raw : String) (now : Nat) (u : UserSt) : UserSt :=
  { u with passwordResetToken := some (shash raw),
           passwordResetExpires := some (now + 10 * 60 * 1000) }

/-- `requestPasswordReset` (`src/controllers/auth.js` lines 395-428): if no
record has the email, answer the generic success message unchanged;
otherwise persist the reset digest and expiry on that record and answer the
same generic success message. -/
def requestPasswordResetOp (shash : String → String) (db : List UserSt)
    (email raw : String) (now : Nat) : List UserSt × Resp :=
  match db.find? (fun u => u.email == email) with
  | none => (db, ⟨200, true, "If the email exists, a password reset link has been sent"⟩)
  | some _ =>
      (updateFirst (fun u => u.email == email) (setResetToken shash raw now) db,
       ⟨200, true, "If the email exists, a password reset link has been sent"⟩)

/-- Failure causes of the external `jsonwebtoken` verification, thrown as
exceptions by `jwt.verify`. -/
inductive JwtErr
  | expired
  | malformed
  | badSignature
deriving DecidableEq, Repr

/-- Claim set carried by a decoded token. Fields are optional because an
arbitrary verified token need not carry them; JavaScript reads them with
`||` fallbacks. -/
structure Claims where
  sub : Option String
  userId : Option String
  email : Option String
  role : Option String
deriving DecidableEq, Repr

/-- `refreshToken` (`src/controllers/auth.js` lines 177-230): missing body
token is 400; a verification exception is caught and answered 401 with the
generic message; a signature-valid token absent from every list is the SAME
401 response; an inactive owner is 403; otherwise 200. The refresh-domain
verifier of the external jsonwebtoken library is the parameter. -/
def refreshOp (verifyR : String → Except JwtErr Claims) (db : List UserSt)
    (body : Option String) : Resp :=
  match body with
  | none => ⟨400, false, "Refresh token is required"⟩
  | some rt =>
    if rt == "" then ⟨400, false, "Refresh token is required"⟩
    else
      match verifyR rt with
      | .error _ => ⟨401, false, "Invalid refresh token"⟩
      | .ok _ =>
        match findByRefreshToken db rt with
        | none => ⟨401, false, "Invalid refresh token"⟩
        | some u =>
          if !u.isActive then ⟨403, false, "Account is deactivated"⟩
          else ⟨200, true, "Token refreshed successfully"⟩

/-- `changePassword` (`src/controllers/auth.js` lines 349-390), per record:
wrong current password is 400 with no state change; otherwise the password
digest is replaced and every refresh token cleared. -/
def changePasswordStep (bhash : String → String) (u : UserSt) (cur newPw : String) :
    UserSt × Resp :=
  if !(u.comparePassword bhash cur) then
    (u, ⟨400, false, "Current password is incorrect"⟩)
  else
    (UserSt.clearAllRefreshTokens { u with password := bhash newPw },
     ⟨200, true, "Password changed successfully"⟩)

/-- `logout` (`src/controllers/auth.js` lines 235-261), per record: with a
token remove that entry, without one clear the list. -/
def logoutStep (u : UserSt) (body : Option String) : UserSt × Resp :=
  match body with
  | some rt => if rt == "" then (u.clearAllRefreshTokens, ⟨200, true, "Logout successful"⟩)
               else (u.removeRefreshToken rt, ⟨200, true, "Logout successful"⟩)
  | none => (u.clearAllRefreshTokens, ⟨200, true, "Logout successful"⟩)

/-- One Session Manager operation against a single identity record, with the
nondeterministic inputs (times, generated token values, request bodies) made
explicit parameters. -/
inductive Op
  | login (pw rt ua ip : String) (now : Nat)
  | logout (body : Option String)
  | changePw (cur newPw : String)
  | requestReset (raw : String) (now : Nat)
  | resetPw (tok newPw : String) (now : Nat)
deriving DecidableEq, Repr

/-- The state transition of one operation on one record, as implemented by
the controllers (the response part is discarded; `requestReset` applies
the record mutation performed when the email matches this record, and
`resetPw` the mutation performed when the raw-token filter matches). -/
def applyOp (bhash shash : String → String) (u : UserSt) : Op → UserSt
  | .login pw rt ua ip now => (loginStep bhash u pw rt ua ip now).1
  | .logout body => (logoutStep u body).1
  | .changePw cur newPw => (changePasswordStep bhash u cur newPw).1
  | .requestReset raw now => setResetToken shash raw now u
  | .resetPw tok newPw now =>
      if resetMatches tok now u then applyReset bhash newPw u else u

/-- Reachability of a record state from an initial state by a sequence of
Session Manager operations. -/
def reachable (bhash shash : String → String) (init u : UserSt) : Prop :=
  ∃ ops : List Op, u = ops.foldl (applyOp bhash shash) init

/-! The edge authorizer, `src/authorizer.js`. -/

/-- Authorizer input event: the prioritized identity-source list (absent or
not an array modelled as `none`), the legacy TOKEN-authorizer field, and
the two possible resource identifiers. -/
structure AuthEvent where
  identitySource : Option (List String)
  authorizationToken : Option String
  routeArn : Option String
  methodArn : Option String
deriving DecidableEq, Repr

/-- JavaScript truthiness of an optional string: present and non-empty. -/
def jsTruthy : Option String → Bool
  | some s => s != ""
  | none => false

/-- JavaScript `a || b` on optional strings. -/
def jsOr (a b : Option String) : Option String :=
  if jsTruthy a then a else b

/-- JavaScript `a || d` on an optional string with a plain default. -/
def jsOrD (a : Option String) (d : String) : String :=
  match a with
  | some s => if s != "" then s else d
  | none => d

/-- JavaScript `s.startsWith("Bearer ")`, phrased with `String.take` (the
first 7 characters equal `Bearer `), which is the same predicate and
evaluates by kernel reduction. -/
def startsWithBearer (s : String) : Bool := s.take 7 == "Bearer "

/-- Function `extractToken` (`src/authorizer.js` lines 46-84): if
`identitySource` is a non-empty array, commit to its first element
(stripping a `Bearer ` prefix from a truthy value, otherwise returning the
element as is, even when it is empty); otherwise, a truthy
`authorizationToken` is used the same way; otherwise null. -/
def extractToken (e : AuthEvent) : Option String :=
  match e.identitySource with
  | some (h :: _) =>
      if h != "" && startsWithBearer h then some (h.drop 7) else some h
  | _ =>
    match e.authorizationToken with
    | some a =>
        if a != "" then
          (if startsWithBearer a then some (a.drop 7) else some a)
        else none
    | none => none

/-- One statement of the IAM policy document produced by the authorizer. -/
structure PolicyStatement where
  action : String
  effect : String
  resource : String
deriving DecidableEq, Repr

/-- Policy document: version plus statements. -/
structure PolicyDocument where
  version : String
  statements : List PolicyStatement
deriving DecidableEq, Repr

/-- Identity context attached to an Allow decision
(`src/authorizer.js` lines 28-32). -/
structure AuthCtx where
  userId : Option String
  email : Option String
  role : String
deriving DecidableEq, Repr

/-- The authorizer output: principal, optional policy document, optional
context. -/
structure AuthResponse where
  principalId : String
  policyDocument : Option PolicyDocument
  context : Option AuthCtx
deriving DecidableEq, Repr

/-- Function `generatePolicy` (`src/authorizer.js` lines 89-110): the
policy document is attached only when both the effect and the resource are
truthy. -/
def generatePolicy (principalId effect : String) (resource : Option String) : AuthResponse :=
  { principalId := principalId,
    policyDocument :=
      match resource with
      | some r =>
          if effect != "" && r != "" then
            some ⟨"2012-10-17", [⟨"execute-api:Invoke", effect, r⟩]⟩
          else none
      | none => none,
    context := none }

/-- The authorizer handler (`src/authorizer.js` lines 10-41). A missing or
falsy token denies against `routeArn` only; a verification exception is
caught and denies against `routeArn || methodArn`; a verified token allows
with the context read off the decoded claims with `||` fallbacks. The
access-domain verifier of the external jsonwebtoken library is the
parameter. -/
def authorizerHandler (verifyA : String → Except JwtErr Claims) (e : AuthEvent) :
    AuthResponse :=
  match extractToken e with
  | none => generatePolicy "user" "Deny" e.routeArn
  | some t =>
    if t == "" then generatePolicy "user" "Deny" e.routeArn
    else
      match verifyA t with
      | .error _ => generatePolicy "user" "Deny" (jsOr e.routeArn e.methodArn)
      | .ok d =>
        let p := generatePolicy (jsOrD d.sub (jsOrD d.userId "user")) "Allow"
          (jsOr e.routeArn e.methodArn)
        { p with context := some ⟨jsOr d.sub d.userId, d.email, jsOrD d.role "user"⟩ }

/-! The gateway-context middleware, `src/utils/jwt.js`. -/

/-- Identity context derived by `getUserFromContext`: the three fields read
from the authorizer payload, each possibly absent. -/
structure GwCtx where
  userId : Option String
  email : Option String
  role : Option String
deriving DecidableEq, Repr

/-- Claims object of the built-in JWT authorizer branch. -/
structure GwJwtClaims where
  userId : Option String
  sub : Option String
  email : Option String
  role : Option String
deriving DecidableEq, Repr

/-- The shapes in which `event.requestContext.authorizer` may carry an
identity payload (`src/utils/jwt.js` lines 83-114). -/
structure GwEvent where
  lambdaCtx : Option GwCtx
  restCtx : Option GwCtx
  jwtClaims : Option GwJwtClaims
deriving DecidableEq, Repr

/-- Function `getUserFromContext` (`src/utils/jwt.js` lines 83-114): the
HTTP-API lambda payload first, then the REST-API payload, then built-in JWT
claims (where `userId` falls back to `sub`), else null. -/
def getUserFromContext (e : GwEvent) : Option GwCtx :=
  match e.lambdaCtx with
  | some c => some c
  | none =>
    match e.restCtx with
    | some c => some c
    | none =>
      match e.jwtClaims with
      | some claims => some ⟨jsOr claims.userId claims.sub, claims.email, claims.role⟩
      | none => none

/-- Result of the role middleware: an error response, or control passed on
with the user context attached to the request. -/
inductive RouteResult
  | reject (status : Nat) (error : String)
  | proceed (user : GwCtx)
deriving DecidableEq, Repr

/-- Middleware `requireRole` (`src/utils/jwt.js` lines 117-132): no derived
user is 401; a role that is neither the required one nor `admin` is 403;
otherwise the context is attached and control passes. The request may lack
the gateway event entirely (`req.apiGateway?.event || {}`). -/
def requireRole (requiredRole : String) (ev : Option GwEvent) : RouteResult :=
  match getUserFromContext (ev.getD ⟨none, none, none⟩) with
  | none => .reject 401 "User not authenticated"
  | some user =>
    if user.role != some requiredRole && user.role != some "admin" then
      .reject 403 "Insufficient permissions"
    else
      .proceed user

/-! Concrete instantiations used by witnesses: a deterministic stand-in for
the abstract bcrypt and SHA-256 parameters, and a sample record. -/

/-- Witness instantiation of the bcrypt parameter. -/
def bhashW (s : String) : String := String.append "$2b$12$" s

/-- Witness instantiation of the SHA-256 parameter. -/
def shashW (s : String) : String := String.append "sha256$" s

/-- Sample active, unlocked record for witnesses. -/
def uW : UserSt :=
  ⟨"a@ex.com", bhashW "pw", "Fn", "Ln", "user", true, none, none, none, none, 0, none, []⟩

/-- Sample decoded claim set for witnesses. -/
def cW : Claims := ⟨some "u1", none, some "a@ex.com", some "admin"⟩

/-- Witness instantiation of the access-domain verifier: one accepted token,
the three rejection causes on three other tokens. -/
def verifyW (t : String) : Except JwtErr Claims :=
  if t == "good" then .ok cW
  else if t == "expired" then .error .expired
  else if t == "mal" then .error .malformed
  else .error .badSignature

/-- Witness instantiation of the refresh-domain verifier: one token with a
valid signature, everything else rejected. -/
def verifyRW (t : String) : Except JwtErr Claims :=
  if t == "revoked" then .ok cW else .error .badSignature

/-- Authorizer event carrying no credential in any recognized source. -/
def eNoneW : AuthEvent := ⟨none, none, some "arnR", some "arnM"⟩

/-- Authorizer event carrying the expired witness token. -/
def eExpW : AuthEvent := ⟨some ["Bearer expired"], none, some "arnR", some "arnM"⟩

/-- Authorizer event carrying the malformed witness token. -/
def eMalW : AuthEvent := ⟨some ["Bearer mal"], none, some "arnR", some "arnM"⟩

/-- Authorizer event carrying the wrong-signature witness token. -/
def eSigW : AuthEvent := ⟨some ["Bearer forged"], none, some "arnR", some "arnM"⟩

/-- Authorizer event carrying the accepted witness token. -/
def eGoodW : AuthEvent := ⟨some ["Bearer good"], none, some "arnR", some "arnM"⟩

/-- Registered witness record: registration at time 0 with one persisted
refresh token. -/
def u0W : UserSt :=
  registerUser bhashW shashW "a@ex.com" "pw" "Fn" "Ln" "user" "evt" "rt0" "ua" "ip" 0

/-- Five wrong-password login attempts at time 0. -/
def opsFailW : List Op := List.replicate 5 (.login "bad" "r" "ua" "ip" 0)

/-- Witness record holding the digest of the raw reset token "rawTok" with
an unexpired expiry, as `generatePasswordResetToken` leaves it. -/
def uResetW : UserSt :=
  { uW with passwordResetToken := some (shashW "rawTok"), passwordResetExpires := some 1000 }

/-- Record already holding five refresh tokens, for the FIFO witness. -/
def vW5 : UserSt :=
  { uW with refreshTokens :=
      [⟨"a", 0, "u", "i"⟩, ⟨"b", 0, "u", "i"⟩, ⟨"c", 0, "u", "i"⟩,
       ⟨"d", 0, "u", "i"⟩, ⟨"e", 0, "u", "i"⟩] }

/-- Six successful logins issuing the tokens t1 … t6, for the FIFO
witness. -/
def sixLoginsW : List Op :=
  [.login "pw" "t1" "ua" "ip" 1, .login "pw" "t2" "ua" "ip" 2,
   .login "pw" "t3" "ua" "ip" 3, .login "pw" "t4" "ua" "ip" 4,
   .login "pw" "t5" "ua" "ip" 5, .login "pw" "t6" "ua" "ip" 6]

/-- Lemma: the response of `requestPasswordReset` is one constant, whatever
the collection, email, generated token or time. -/
theorem requestPasswordReset_resp_const (shash : String → String) (db : List UserSt)
    (email raw : String) (now : Nat) :
    (requestPasswordResetOp shash db email raw now).2 =
      ⟨200, true, "If the email exists, a password reset link has been sent"⟩ := by
  unfold requestPasswordResetOp
  rcases h : db.find? (fun u => u.email == email) with _ | u <;> simp [h]

/-- C8: for any two invocations of requestPasswordReset, one with an email
that matches an existing record and one with an email that matches none,
the caller-visible response (success flag and message) is identical. -/
theorem requestPasswordReset_uniform_response
    (shash1 shash2 : String → String) (db1 db2 : List UserSt)
    (e1 e2 raw1 raw2 : String) (now1 now2 : Nat)
    (hhit : (db1.find? (fun u => u.email == e1)).isSome = true)
    (hmiss : (db2.find? (fun u => u.email == e2)).isSome = false) :
    (requestPasswordResetOp shash1 db1 e1 raw1 now1).2 =
      (requestPasswordResetOp shash2 db2 e2 raw2 now2).2 := by
  rw [requestPasswordReset_resp_const, requestPasswordReset_resp_const]

/-- Witness for C8 at a concrete hit and a concrete miss. -/
theorem requestPasswordReset_uniform_response_witness :
    (requestPasswordResetOp shashW [uW] "a@ex.com" "raw1" 0).2 =
      (requestPasswordResetOp shashW [uW] "b@ex.com" "raw2" 5).2 :=
  requestPasswordReset_uniform_response shashW shashW [uW] [uW] "a@ex.com" "b@ex.com"
    "raw1" "raw2" 0 5 (by decide) (by decide)

/-- C9: a valid registration stores a password digest that is not byte-equal
to the submitted plaintext, and a subsequent login with the original
plaintext succeeds. -/
theorem register_hashes_and_roundtrips
    (bhash shash : String → String)
    (email p fn ln role etok rt ua ip rt2 ua2 ip2 : String) (now now2 : Nat)
    (hne : bhash p ≠ p) :
    (registerUser bhash shash email p fn ln role etok rt ua ip now).password ≠ p ∧
    (loginStep bhash (registerUser bhash shash email p fn ln role etok rt ua ip now)
        p rt2 ua2 ip2 now2).2 = ⟨200, true, "Login successful"⟩ := by
  constructor
  · simpa [registerUser, UserSt.addRefreshToken] using hne
  · simp [registerUser, UserSt.addRefreshToken, loginStep, UserSt.isLocked,
      UserSt.comparePassword]

/-- Witness for C9 at a concrete registration. -/
theorem register_hashes_and_roundtrips_witness :
    (registerUser bhashW shashW "a@ex.com" "pw" "Fn" "Ln" "user" "evt" "rt0" "ua" "ip"
        0).password ≠ "pw" ∧
    (loginStep bhashW (registerUser bhashW shashW "a@ex.com" "pw" "Fn" "Ln" "user" "evt"
        "rt0" "ua" "ip" 0) "pw" "rt1" "ua" "ip" 7).2 = ⟨200, true, "Login successful"⟩ :=
  register_hashes_and_roundtrips bhashW shashW "a@ex.com" "pw" "Fn" "Ln" "user" "evt"
    "rt0" "ua" "ip" "rt1" "ua" "ip" 0 7 (by decide)

/-- C10: the role middleware answers 401 when no identity context can be
derived, 403 when the derived role is neither the required one nor admin,
and otherwise attaches the context and passes control (the admin role
passing for every required role). -/
theorem requireRole_decision (r : String) (ev : Option GwEvent) :
    (getUserFromContext (ev.getD ⟨none, none, none⟩) = none →
       requireRole r ev = .reject 401 "User not authenticated") ∧
    (∀ u, getUserFromContext (ev.getD ⟨none, none, none⟩) = some u →
       u.role ≠ some r → u.role ≠ some "admin" →
       requireRole r ev = .reject 403 "Insufficient permissions") ∧
    (∀ u, getUserFromContext (ev.getD ⟨none, none, none⟩) = some u →
       (u.role = some r ∨ u.role = some "admin") →
       requireRole r ev = .proceed u) := by
  refine ⟨fun h => ?_, fun u h h1 h2 => ?_, fun u h h1 => ?_⟩
  · simp [requireRole, h]
  · simp [requireRole, h, h1, h2]
  · rcases h1 with h1 | h1 <;> simp [requireRole, h, h1]

/-- Witness for C10: all three branches at concrete gateway events. -/
theorem requireRole_decision_witness :
    requireRole "moderator" none = .reject 401 "User not authenticated" ∧
    requireRole "moderator"
        (some ⟨some ⟨some "u1", some "a@ex.com", some "user"⟩, none, none⟩) =
      .reject 403 "Insufficient permissions" ∧
    requireRole "moderator"
        (some ⟨some ⟨some "u2", some "b@ex.com", some "admin"⟩, none, none⟩) =
      .proceed ⟨some "u2", some "b@ex.com", some "admin"⟩ :=
  ⟨(requireRole_decision "moderator" none).1 (by decide),
   (requireRole_decision "moderator"
      (some ⟨some ⟨some "u1", some "a@ex.com", some "user"⟩, none, none⟩)).2.1
      ⟨some "u1", some "a@ex.com", some "user"⟩ (by decide) (by decide) (by decide),
   (requireRole_decision "moderator"
      (some ⟨some ⟨some "u2", some "b@ex.com", some "admin"⟩, none, none⟩)).2.2
      ⟨some "u2", some "b@ex.com", some "admin"⟩ (by decide) (Or.inr (by decide))⟩

/-- C3: a login against a record whose lock-until timestamp is set and in
the future is rejected 423 with the record unchanged (so the attempt
counter is not consumed), for EVERY supplied password (so the password is
not checked); and from an unlocked active record with 4 accumulated failed
attempts, a 5th failed password check sets the counter to 5 and the
lock-until timestamp to 30 minutes after the failure. -/
theorem login_lockout (bhash : String → String) (u : UserSt)
    (pw rt ua ip : String) (now T : Nat) :
    (u.lockUntil = some T → now < T →
       loginStep bhash u pw rt ua ip now =
         (u, ⟨423, false,
              "Account is temporarily locked due to too many failed login attempts"⟩)) ∧
    (u.isLocked now = false → u.isActive = true → u.loginAttempts = 4 →
       u.password ≠ bhash pw →
       (loginStep bhash u pw rt ua ip now).1.loginAttempts = 5 ∧
       (loginStep bhash u pw rt ua ip now).1.lockUntil = some (now + 30 * 60 * 1000) ∧
       (loginStep bhash u pw rt ua ip now).2 = ⟨401, false, "Invalid credentials"⟩) := by
  constructor
  · intro hset hfut
    simp [loginStep, UserSt.isLocked, hset, hfut]
  · intro hunlocked hact hatt hwrong
    simp [loginStep, hunlocked, hact, hatt, UserSt.comparePassword, hwrong]

/-- Witness for C3: both branches at concrete records. -/
theorem login_lockout_witness :
    (loginStep bhashW { uW with lockUntil := some 100 } "pw" "rt" "ua" "ip" 50 =
       ({ uW with lockUntil := some 100 },
        ⟨423, false,
         "Account is temporarily locked due to too many failed login attempts"⟩)) ∧
    ((loginStep bhashW { uW with loginAttempts := 4 } "bad" "rt" "ua" "ip" 50).1.loginAttempts
        = 5 ∧
     (loginStep bhashW { uW with loginAttempts := 4 } "bad" "rt" "ua" "ip" 50).1.lockUntil
        = some (50 + 30 * 60 * 1000) ∧
     (loginStep bhashW { uW with loginAttempts := 4 } "bad" "rt" "ua" "ip" 50).2
        = ⟨401, false, "Invalid credentials"⟩) :=
  ⟨(login_lockout bhashW { uW with lockUntil := some 100 } "pw" "rt" "ua" "ip" 50 100).1
     rfl (by decide),
   (login_lockout bhashW { uW with loginAttempts := 4 } "bad" "rt" "ua" "ip" 50 0).2
     (by decide) (by decide) (by decide) (by decide)⟩

/-- C5: the access decision. No credential (or a falsy one) in any
recognized source denies; a token failing access-domain verification denies
with an output independent of the failure cause (expired, malformed or
wrong signature), identical across events that protect the same resource;
a verified token allows, with a context whose userId, email and role equal
the claims of the token. -/
theorem authorizer_decision (verifyA : String → Except JwtErr Claims) (e : AuthEvent)
    (t : String) (d : Claims) (sid ro : String) :
    (extractToken e = none ∨ extractToken e = some "" →
       authorizerHandler verifyA e = generatePolicy "user" "Deny" e.routeArn) ∧
    (∀ e1 e2 : AuthEvent, ∀ t1 t2 : String, ∀ err1 err2 : JwtErr,
       e1.routeArn = e2.routeArn → e1.methodArn = e2.methodArn →
       extractToken e1 = some t1 → t1 ≠ "" → verifyA t1 = .error err1 →
       extractToken e2 = some t2 → t2 ≠ "" → verifyA t2 = .error err2 →
       authorizerHandler verifyA e1 =
           generatePolicy "user" "Deny" (jsOr e1.routeArn e1.methodArn) ∧
       authorizerHandler verifyA e1 = authorizerHandler verifyA e2) ∧
    (extractToken e = some t → t ≠ "" → verifyA t = .ok d →
       d.sub = some sid → sid ≠ "" → d.role = some ro → ro ≠ "" →
       (authorizerHandler verifyA e).context = some ⟨some sid, d.email, ro⟩ ∧
       (∀ res : String, jsOr e.routeArn e.methodArn = some res → res ≠ "" →
          (authorizerHandler verifyA e).policyDocument =
            some ⟨"2012-10-17", [⟨"execute-api:Invoke", "Allow", res⟩]⟩)) := by
  refine ⟨fun h => ?_, fun e1 e2 t1 t2 err1 err2 ha hm hx1 ht1 hv1 hx2 ht2 hv2 => ?_,
    fun hx ht hv hsub hsid hrole hro => ?_⟩
  · rcases h with h | h <;> simp [authorizerHandler, h]
  · constructor
    · simp [authorizerHandler, hx1, beq_iff_eq, ht1, hv1]
    · simp [authorizerHandler, hx1, hx2, beq_iff_eq, ht1, ht2, hv1, hv2, ha, hm]
  · constructor
    · simp [authorizerHandler, hx, beq_iff_eq, ht, hv, jsOr, jsOrD, jsTruthy,
        hsub, hsid, hrole, hro]
    · intro res hres hr
      simp [authorizerHandler, hx, beq_iff_eq, ht, hv, generatePolicy, hres,
        bne_iff_ne, hr]

/-- Witness for C5: the three branches at concrete events, the deny output
identical for the expired, malformed and forged witness tokens. -/
theorem authorizer_decision_witness :
    authorizerHandler verifyW eNoneW = generatePolicy "user" "Deny" (some "arnR") ∧
    (authorizerHandler verifyW eExpW =
        generatePolicy "user" "Deny" (jsOr (some "arnR") (some "arnM")) ∧
     authorizerHandler verifyW eExpW = authorizerHandler verifyW eMalW) ∧
    (authorizerHandler verifyW eExpW =
        generatePolicy "user" "Deny" (jsOr (some "arnR") (some "arnM")) ∧
     authorizerHandler verifyW eExpW = authorizerHandler verifyW eSigW) ∧
    (authorizerHandler verifyW eGoodW).context =
      some ⟨some "u1", some "a@ex.com", "admin"⟩ := by
  refine ⟨?_, ?_, ?_, ?_⟩
  · exact (authorizer_decision verifyW eNoneW "t" cW "s" "r").1 (Or.inl (by decide))
  · exact (authorizer_decision verifyW eNoneW "t" cW "s" "r").2.1 eExpW eMalW
      "expired" "mal" .expired .malformed rfl rfl rfl (by decide) rfl
      rfl (by decide) rfl
  · exact (authorizer_decision verifyW eNoneW "t" cW "s" "r").2.1 eExpW eSigW
      "expired" "forged" .expired .badSignature rfl rfl rfl (by decide)
      rfl rfl (by decide) rfl
  · exact ((authorizer_decision verifyW eGoodW "good" cW "u1" "admin").2.2
      rfl (by decide) rfl rfl (by decide) rfl (by decide)).1

/-- C7: extraction priority of the authorizer. A non-empty identity-source
array is the first source: its first element is used, a `Bearer ` prefix on
a truthy value stripped and any other value taken raw (including the empty
value, which then denies). Only when the identity-source array is absent or
empty is the legacy TOKEN field consulted, again with prefix stripping.
When neither source yields a token the handler immediately denies. -/
theorem extractToken_priority (verifyA : String → Except JwtErr Claims) (e : AuthEvent) :
    (∀ h rest, e.identitySource = some (h :: rest) →
       extractToken e =
         (if h ≠ "" ∧ startsWithBearer h then some (h.drop 7) else some h)) ∧
    (e.identitySource = none ∨ e.identitySource = some [] →
       ∀ a, e.authorizationToken = some a → a ≠ "" →
         extractToken e = (if startsWithBearer a then some (a.drop 7) else some a)) ∧
    (e.identitySource = none ∨ e.identitySource = some [] →
       e.authorizationToken = none ∨ e.authorizationToken = some "" →
       extractToken e = none) ∧
    (extractToken e = none ∨ extractToken e = some "" →
       authorizerHandler verifyA e = generatePolicy "user" "Deny" e.routeArn) := by
  refine ⟨fun h rest hsrc => ?_, fun hsrc a hauth ha => ?_, fun hsrc hauth => ?_,
    fun hx => ?_⟩
  · rcases hne : (h == "") with _ | _
    · simp only [extractToken, hsrc]
      simp [beq_eq_false_iff_ne.mp hne, bne_iff_ne]
    · simp only [extractToken, hsrc]
      simp [beq_iff_eq.mp hne]
  · rcases hsrc with hsrc | hsrc <;>
      simp [extractToken, hsrc, hauth, bne_iff_ne, ha]
  · rcases hsrc with hsrc | hsrc <;> rcases hauth with hauth | hauth <;>
      simp [extractToken, hsrc, hauth]
  · rcases hx with hx | hx <;> simp [authorizerHandler, hx]

/-- Witness for C7: the four conjuncts at concrete events, including the
Bearer-stripping and raw-value cases. -/
theorem extractToken_priority_witness :
    extractToken eGoodW =
      (if ("Bearer good" : String) ≠ "" ∧ startsWithBearer "Bearer good"
       then some ("Bearer good".drop 7) else some "Bearer good") ∧
    extractToken ⟨none, some "Bearer tok", some "arnR", none⟩ =
      (if startsWithBearer "Bearer tok"
       then some ("Bearer tok".drop 7) else some "Bearer tok") ∧
    extractToken ⟨some [], some "", some "arnR", none⟩ = none ∧
    authorizerHandler verifyW eNoneW = generatePolicy "user" "Deny" (some "arnR") := by
  refine ⟨?_, ?_, ?_, ?_⟩
  · exact (extractToken_priority verifyW eGoodW).1 "Bearer good" [] rfl
  · exact (extractToken_priority verifyW ⟨none, some "Bearer tok", some "arnR", none⟩).2.1
      (Or.inl rfl) "Bearer tok" rfl (by decide)
  · exact (extractToken_priority verifyW ⟨some [], some "", some "arnR", none⟩).2.2.1
      (Or.inr rfl) (Or.inr rfl)
  · exact (extractToken_priority verifyW eNoneW).2.2.2 (Or.inl (by decide))

/-- C1 (code evaluation at the failing input): a record holding exactly what
`generatePasswordResetToken` stores for a raw token `t` — the digest
`shash t` and an unexpired expiry — is NOT matched by `resetPassword t`,
because the controller queries `passwordResetToken: token` against the raw
token instead of its digest; the call answers 400 `Invalid or expired reset
token` and leaves the collection unchanged, although the claimed success
condition (stored digest equals digest of the supplied token, expiry in the
future) holds. -/
theorem resetPassword_rejects_issued_token
    (bhash shash : String → String) (u : UserSt) (t newPw : String) (now e : Nat)
    (hstore : u.passwordResetToken = some (shash t))
    (hexp : u.passwordResetExpires = some e) (hfut : now < e)
    (hdigest : shash t ≠ t) :
    resetPasswordOp bhash [u] t newPw now =
      ([u], ⟨400, false, "Invalid or expired reset token"⟩) := by
  have hm : resetMatches t now u = false := by
    simp [resetMatches, hstore, hdigest]
  simp [resetPasswordOp, hm]

/-- Witness for C1 at the concrete record produced by the reset-request
flow for the raw token `rawTok`. -/
theorem resetPassword_rejects_issued_token_witness :
    resetPasswordOp bhashW [uResetW] "rawTok" "newPw" 0 =
      ([uResetW], ⟨400, false, "Invalid or expired reset token"⟩) :=
  resetPassword_rejects_issued_token bhashW shashW uResetW "rawTok" "newPw"
    0 1000 rfl rfl (by decide) (by decide)

/-- C2 counterexample: a refresh token whose signature verifies but which is
in no current list produces the very same observable response (401,
`Invalid refresh token`) as a token whose verification fails, so the
revocation failure is not distinct in the output. -/
theorem refresh_revoked_output_not_distinct :
    refreshOp verifyRW [uW] (some "revoked") = refreshOp verifyRW [uW] (some "forged") ∧
    refreshOp verifyRW [uW] (some "revoked") = ⟨401, false, "Invalid refresh token"⟩ ∧
    verifyRW "revoked" = .ok cW ∧ (verifyRW "forged").isOk = false ∧
    findByRefreshToken [uW] "revoked" = none := by
  refine ⟨rfl, rfl, rfl, rfl, rfl⟩

/-- C2 amended: a signature-valid refresh token absent from every current
list fails with the 401 `Invalid refresh token` response (the same
observable response as any verification failure); tokens removed by the
logout, changePassword and resetPassword state updates are absent from the
record that held them, so such tokens fall under this case. -/
theorem refresh_revoked_uniform_401
    (verifyR : String → Except JwtErr Claims) (db : List UserSt)
    (t : String) (c : Claims) (bhash : String → String)
    (ht : t ≠ "") (hv : verifyR t = .ok c)
    (habs : findByRefreshToken db t = none) :
    refreshOp verifyR db (some t) = ⟨401, false, "Invalid refresh token"⟩ ∧
    (∀ err, ∀ bad : String, bad ≠ "" → verifyR bad = .error err →
       refreshOp verifyR db (some bad) = refreshOp verifyR db (some t)) ∧
    (∀ u : UserSt, t ∉ ((logoutStep u (some t)).1).refreshTokenValues) ∧
    (∀ u : UserSt, ∀ cur newPw : String, u.comparePassword bhash cur = true →
       t ∉ ((changePasswordStep bhash u cur newPw).1).refreshTokenValues) ∧
    (∀ u : UserSt, ∀ newPw : String, t ∉ (applyReset bhash newPw u).refreshTokenValues) := by
  have hmain : refreshOp verifyR db (some t) = ⟨401, false, "Invalid refresh token"⟩ := by
    simp [refreshOp, beq_iff_eq, ht, hv, habs]
  refine ⟨hmain, fun err bad hb hvb => ?_, fun u => ?_, fun u cur newPw hc => ?_,
    fun u newPw => ?_⟩
  · rw [hmain]; simp [refreshOp, beq_iff_eq, hb, hvb]
  · rcases he : (t == "") with _ | _
    · simp [logoutStep, he, UserSt.removeRefreshToken, UserSt.refreshTokenValues]
    · exact absurd (beq_iff_eq.mp he) ht
  · simp [changePasswordStep, hc, UserSt.clearAllRefreshTokens, UserSt.refreshTokenValues]
  · simp [applyReset, UserSt.refreshTokenValues]

/-- Witness for C2 amended: the revoked witness token against the witness
record, the uniform output against a forged token, and absence after the
three revocation updates. -/
theorem refresh_revoked_uniform_401_witness :
    refreshOp verifyRW [uW] (some "revoked") = ⟨401, false, "Invalid refresh token"⟩ ∧
    refreshOp verifyRW [uW] (some "forged") = refreshOp verifyRW [uW] (some "revoked") ∧
    "revoked" ∉ ((logoutStep uW (some "revoked")).1).refreshTokenValues ∧
    "revoked" ∉ ((changePasswordStep bhashW uW "pw" "new").1).refreshTokenValues ∧
    "revoked" ∉ (applyReset bhashW "new" uW).refreshTokenValues := by
  obtain ⟨h1, h2, h3, h4, h5⟩ := refresh_revoked_uniform_401 verifyRW [uW] "revoked" cW
    bhashW (by decide) rfl rfl
  exact ⟨h1, h2 .badSignature "forged" (by decide) rfl, h3 uW,
    h4 uW "pw" "new" (by decide), h5 uW "new"⟩

/-- Lemma: `addRefreshToken` keeps the refresh-token list within 5
entries. -/
theorem addRefreshToken_length_le (u : UserSt) (tok ua ip : String) (now : Nat)
    (h : u.refreshTokens.length ≤ 5) :
    (u.addRefreshToken tok ua ip now).refreshTokens.length ≤ 5 := by
  unfold UserSt.addRefreshToken
  dsimp only
  split
  · rw [List.length_drop]
    omega
  · rename_i h5
    rw [not_lt] at h5
    exact h5

/-- Lemma: every Session Manager operation keeps the refresh-token list
within 5 entries. -/
theorem applyOp_refresh_le (bhash shash : String → String) (u : UserSt) (op : Op)
    (h : u.refreshTokens.length ≤ 5) :
    (applyOp bhash shash u op).refreshTokens.length ≤ 5 := by
  cases op with
  | login pw rt ua ip now =>
    simp only [applyOp, loginStep]
    split
    · exact h
    · split
      · exact h
      · split
        · exact h
        · exact addRefreshToken_length_le _ rt ua ip now h
  | logout body =>
    cases body with
    | none => simp [applyOp, logoutStep, UserSt.clearAllRefreshTokens]
    | some rt =>
      by_cases hrt : rt = ""
      · simp [applyOp, logoutStep, hrt, UserSt.clearAllRefreshTokens]
      · simp only [applyOp, logoutStep, beq_iff_eq, if_neg hrt, UserSt.removeRefreshToken]
        exact le_trans (List.length_filter_le _ _) h
  | changePw cur newPw =>
    simp only [applyOp, changePasswordStep]
    split
    · exact h
    · simp [UserSt.clearAllRefreshTokens]
  | requestReset raw now =>
    exact h
  | resetPw tok newPw now =>
    simp only [applyOp]
    split
    · simp [applyReset]
    · exact h

/-- Lemma: every Session Manager operation preserves the property that a
record without a lock-until timestamp has fewer than 5 recorded attempts. -/
theorem applyOp_lock_inv (bhash shash : String → String) (u : UserSt) (op : Op)
    (h : u.lockUntil = none → u.loginAttempts < 5) :
    (applyOp bhash shash u op).lockUntil = none →
      (applyOp bhash shash u op).loginAttempts < 5 := by
  cases op with
  | login pw rt ua ip now =>
    simp only [applyOp, loginStep]
    split
    · exact h
    · split
      · exact h
      · split
        · dsimp only
          split
          · intro hco
            exact absurd hco (by simp)
          · rename_i h5
            intro _
            omega
        · intro _
          simp [UserSt.addRefreshToken]
  | logout body =>
    cases body with
    | none => exact h
    | some rt =>
      by_cases hrt : rt = ""
      · simpa [applyOp, logoutStep, hrt, UserSt.clearAllRefreshTokens] using h
      · simpa [applyOp, logoutStep, hrt, UserSt.removeRefreshToken] using h
  | changePw cur newPw =>
    simp only [applyOp, changePasswordStep]
    split
    · exact h
    · exact h
  | requestReset raw now =>
    exact h
  | resetPw tok newPw now =>
    simp only [applyOp]
    split
    · simp [applyReset]
    · exact h

/-- Lemma: a property preserved by every operation holds along every fold
of operations. -/
theorem foldl_applyOp_preserve (bhash shash : String → String) (P : UserSt → Prop)
    (hstep : ∀ u op, P u → P (applyOp bhash shash u op)) :
    ∀ (ops : List Op) (init : UserSt), P init →
      P (ops.foldl (applyOp bhash shash) init) := by
  intro ops
  induction ops with
  | nil => exact fun init h => h
  | cons op rest ih => exact fun init h => ih _ (hstep init op h)

/-- C4 counterexample: after five failed logins at time 0 the reachable
record has lock-until 1800000; at time 1800000 the lock has elapsed, so the
record is in the Unlocked state of the claim, yet its login-attempt counter
is 5, outside [0,5). -/
theorem unlocked_counter_counterexample :
    reachable bhashW shashW u0W (opsFailW.foldl (applyOp bhashW shashW) u0W) ∧
    (opsFailW.foldl (applyOp bhashW shashW) u0W).isLocked 1800000 = false ∧
    ¬((opsFailW.foldl (applyOp bhashW shashW) u0W).loginAttempts < 5) :=
  ⟨⟨opsFailW, rfl⟩, by decide, by decide⟩

/-- C4 amended: in every state reachable by Session Manager operations from
a well-formed initial record, if the lock-until timestamp is ABSENT the
login-attempt counter lies in [0,5) (after a lock merely elapses the
counter may still be 5 or more, as the counterexample shows); and whenever
the lock is not in force at the current time, a correct-password login on
an active record succeeds and resets the counter to 0. -/
theorem lockout_counter_invariant (bhash shash : String → String) (init u : UserSt)
    (hinit : init.lockUntil = none → init.loginAttempts < 5)
    (hreach : reachable bhash shash init u) :
    (u.lockUntil = none → u.loginAttempts < 5) ∧
    (∀ pw rt ua ip : String, ∀ now : Nat,
       u.isLocked now = false → u.isActive = true →
       u.comparePassword bhash pw = true →
       (loginStep bhash u pw rt ua ip now).1.loginAttempts = 0 ∧
       (loginStep bhash u pw rt ua ip now).2 = ⟨200, true, "Login successful"⟩) := by
  obtain ⟨ops, rfl⟩ := hreach
  constructor
  · exact foldl_applyOp_preserve bhash shash
      (fun v => v.lockUntil = none → v.loginAttempts < 5)
      (fun v op hv => applyOp_lock_inv bhash shash v op hv) ops init hinit
  · intro pw rt ua ip now hl ha hc
    constructor
    · simp [loginStep, hl, ha, hc, UserSt.addRefreshToken]
    · simp [loginStep, hl, ha, hc]

/-- Witness for C4 amended: one failed login from the registered witness
record, then the invariant and the counter reset at a correct login. -/
theorem lockout_counter_invariant_witness :
    ([Op.login "bad" "r" "ua" "ip" 0].foldl (applyOp bhashW shashW) u0W).loginAttempts < 5 ∧
    (loginStep bhashW ([Op.login "bad" "r" "ua" "ip" 0].foldl (applyOp bhashW shashW) u0W)
        "pw" "rt1" "ua" "ip" 9).1.loginAttempts = 0 :=
  ⟨(lockout_counter_invariant bhashW shashW u0W _ (by decide)
      ⟨[Op.login "bad" "r" "ua" "ip" 0], rfl⟩).1 (by decide),
   ((lockout_counter_invariant bhashW shashW u0W _ (by decide)
      ⟨[Op.login "bad" "r" "ua" "ip" 0], rfl⟩).2 "pw" "rt1" "ua" "ip" 9
      (by decide) (by decide) (by decide)).1⟩

/-- C6: the refresh-token list of a record stays within 5 entries across
every sequence of Session Manager operations; on overflow the oldest entry
is evicted first; after registration followed by 6 sequential successful
logins, exactly the 5 most recently issued refresh tokens remain and the
first login-issued token is no longer in the list. -/
theorem refresh_list_capped_fifo (bhash shash : String → String) (init u v : UserSt)
    (tok ua ip : String) (now : Nat)
    (hinit : init.refreshTokens.length ≤ 5)
    (hreach : reachable bhash shash init u) :
    u.refreshTokens.length ≤ 5 ∧
    (v.refreshTokens.length = 5 →
       (v.addRefreshToken tok ua ip now).refreshTokens =
         v.refreshTokens.drop 1 ++ [⟨tok, now, ua, ip⟩]) ∧
    (∀ u6 : UserSt, ∀ email pw fn ln role etok rt0 t1 t2 t3 t4 t5 t6 : String,
       ∀ n0 n1 n2 n3 n4 n5 n6 : Nat,
       u6 = [Op.login pw t1 ua ip n1, Op.login pw t2 ua ip n2, Op.login pw t3 ua ip n3,
             Op.login pw t4 ua ip n4, Op.login pw t5 ua ip n5,
             Op.login pw t6 ua ip n6].foldl (applyOp bhash shash)
               (registerUser bhash shash email pw fn ln role etok rt0 ua ip n0) →
       u6.refreshTokenValues = [t2, t3, t4, t5, t6] ∧
       (t1 ∉ [t2, t3, t4, t5, t6] → t1 ∉ u6.refreshTokenValues)) := by
  obtain ⟨ops, rfl⟩ := hreach
  refine ⟨?_, ?_, ?_⟩
  · exact foldl_applyOp_preserve bhash shash (fun w => w.refreshTokens.length ≤ 5)
      (fun w op hw => applyOp_refresh_le bhash shash w op hw) ops init hinit
  · intro h5
    rcases hl : v.refreshTokens with _ | ⟨a, rest⟩
    · rw [hl] at h5
      simp at h5
    · have hr : rest.length = 4 := by
        rw [hl] at h5
        simpa using h5
      simp [UserSt.addRefreshToken, hl, hr]
  · intro u6 email pw fn ln role etok rt0 t1 t2 t3 t4 t5 t6 n0 n1 n2 n3 n4 n5 n6 h6
    have hv : u6.refreshTokenValues = [t2, t3, t4, t5, t6] := by
      subst h6
      simp [registerUser, applyOp, loginStep, UserSt.addRefreshToken, UserSt.isLocked,
        UserSt.comparePassword, UserSt.refreshTokenValues]
    exact ⟨hv, fun hn hmem => hn (hv ▸ hmem)⟩

/-- Lemma: the six-login witness fold written with the fixture names equals
the same fold written out term by term. -/
theorem sixLoginsW_foldl_eq :
    sixLoginsW.foldl (applyOp bhashW shashW) u0W =
      [Op.login "pw" "t1" "ua" "ip" 1, Op.login "pw" "t2" "ua" "ip" 2,
       Op.login "pw" "t3" "ua" "ip" 3, Op.login "pw" "t4" "ua" "ip" 4,
       Op.login "pw" "t5" "ua" "ip" 5, Op.login "pw" "t6" "ua" "ip" 6].foldl
        (applyOp bhashW shashW)
        (registerUser bhashW shashW "a@ex.com" "pw" "Fn" "Ln" "user" "evt" "rt0" "ua" "ip"
          0) := rfl

/-- Witness for C6: the cap after five failed logins, FIFO eviction on a
record with five tokens, and the six-login scenario from the registered
witness record. -/
theorem refresh_list_capped_fifo_witness :
    (opsFailW.foldl (applyOp bhashW shashW) u0W).refreshTokens.length ≤ 5 ∧
    (vW5.addRefreshToken "f" "ua" "ip" 9).refreshTokens =
      vW5.refreshTokens.drop 1 ++ [⟨"f", 9, "ua", "ip"⟩] ∧
    (sixLoginsW.foldl (applyOp bhashW shashW) u0W).refreshTokenValues =
      ["t2", "t3", "t4", "t5", "t6"] ∧
    "t1" ∉ (sixLoginsW.foldl (applyOp bhashW shashW) u0W).refreshTokenValues := by
  obtain ⟨h1, h2, h3⟩ := refresh_list_capped_fifo bhashW shashW u0W
    (opsFailW.foldl (applyOp bhashW shashW) u0W) vW5 "f" "ua" "ip" 9 (by decide)
    ⟨opsFailW, rfl⟩
  obtain ⟨h6a, h6b⟩ := h3 (sixLoginsW.foldl (applyOp bhashW shashW) u0W)
    "a@ex.com" "pw" "Fn" "Ln" "user" "evt" "rt0" "t1" "t2" "t3" "t4" "t5" "t6"
    0 1 2 3 4 5 6 sixLoginsW_foldl_eq
  exact ⟨h1, h2 (by decide), h6a, h6b (by decide)⟩
